import Mathlib

/-!
Shallow embedding of the Docker-host lifecycle subsystem of tinyorch
(src/tinyorch/core.py).  External effects (subprocess output, the state
file, PID liveness, filesystem nodes) are modelled as explicit oracle
parameters; machine strings are modelled as lists of characters so that
the text processing of the source (strip, isdigit, split, find, lower)
can be mirrored exactly.
-/

/-- Error taxonomy of the subsystem (spec section 7).  `invalidArgument` is the
ValueError raised for a non-positive parent PID, `unsupportedPlatform` the
RuntimeError raised for an unknown OS, `provisionError` the RuntimeError
raised when a required discovery step fails. -/
inductive Err where
  | invalidArgument
  | unsupportedPlatform
  | provisionError
deriving DecidableEq, Repr

/-- Python exception classes the errors correspond to in the source. -/
inductive PyExc where
  | valueError
  | runtimeError
deriving DecidableEq, Repr

/-- Which Python exception class each error of the taxonomy is raised as. -/
def Err.pyClass : Err → PyExc
  | .invalidArgument => .valueError
  | .unsupportedPlatform => .runtimeError
  | .provisionError => .runtimeError

/-- Python str.strip on a line, modelled on character lists: whitespace is
removed from both ends (whitespace as modelled by Char.isWhitespace). -/
def trimLine (l : List Char) : List Char :=
  ((l.dropWhile Char.isWhitespace).reverse.dropWhile Char.isWhitespace).reverse

/-- Python str.isdigit for ASCII decimal lines: non-empty and all digits. -/
def isdigitLine (l : List Char) : Bool :=
  !l.isEmpty && l.all Char.isDigit

/-- Numeric value of a decimal digit character. -/
def digitVal (c : Char) : Nat :=
  c.toNat - 48

/-- Value of an all-digit line, most significant digit first, as computed by
Python int() on such a line. -/
def parseNat (l : List Char) : Nat :=
  Nat.ofDigits 10 ((l.map digitVal).reverse)

/-- Fuel-driven decimal rendering of a natural number (least fuel bound the
number itself); structural recursion keeps it kernel-computable. -/
def printNatAux : Nat → Nat → List Char
  | 0, _ => []
  | fuel + 1, n =>
    if n = 0 then [] else printNatAux fuel (n / 10) ++ [Nat.digitChar (n % 10)]

/-- Decimal rendering of a natural number, most significant digit first, as
produced by a Python f-string. -/
def printNat (n : Nat) : List Char :=
  if n = 0 then ['0'] else printNatAux n n

/-- Source `_pid_alive` (core.py:374): a pid that is not positive is never
alive; otherwise liveness is the outcome of the zero-effect signal probe,
modelled by the oracle `alive`. -/
def _pid_alive (alive : Int → Bool) (pid : Int) : Bool :=
  if pid ≤ 0 then false else alive pid

/-- Per-line step of `_read_state_pids`: strip the line, keep it only if it is
all digits and the parsed pid is currently alive. -/
def readLine (alive : Int → Bool) (line : List Char) : Option Int :=
  let l := trimLine line
  if isdigitLine l then
    let pid : Int := (parseNat l : Nat)
    if _pid_alive alive pid then some pid else none
  else none

/-- Kept pids of the state-file lines in file order (the iteration underlying
the set built by `_read_state_pids`). -/
def _read_state_list (alive : Int → Bool) (file : Option (List (List Char))) :
    List Int :=
  match file with
  | none => []
  | some lines => lines.filterMap (readLine alive)

/-- Source `_read_state_pids` (core.py:384): a missing file yields the empty
set; otherwise the set of parsed, currently-alive pids of the lines. -/
def _read_state_pids (alive : Int → Bool) (file : Option (List (List Char))) :
    Finset Int :=
  (_read_state_list alive file).toFinset

/-- Insertion step of the sort used to model Python sorted(). -/
def insortAux (x : Int) : List Int → List Int
  | [] => [x]
  | y :: ys => if x ≤ y then x :: y :: ys else y :: insortAux x ys

/-- Insertion sort on pid lists, modelling Python sorted(); structural
recursion keeps it kernel-computable. -/
def insort : List Int → List Int
  | [] => []
  | x :: xs => insortAux x (insort xs)

/-- Source `_write_state_pids` (core.py:398): compute the deduplicated sorted
list of positive pids; if empty, delete the file (a missing file is not an
error: the FileNotFoundError of unlink is caught), else write one pid per
line.  The result is the new contents of the file; `prev` is its previous
contents, relevant only to the unlink step. -/
def _write_state_pids (prev : Option (List (List Char))) (pids : List Int) :
    Option (List (List Char)) :=
  let uniq := insort (pids.filter (fun p => 0 < p)).dedup
  if uniq = [] then
    match prev with
    | none => none
    | some _ => none
  else
    some (uniq.map (fun p => printNat p.toNat))

/-- Aux for the Python int() grammar: tail of a decimal literal in which an
underscore may appear only between digits. -/
def validNumAux : List Char → Bool
  | [] => true
  | '_' :: c :: rest => c.isDigit && validNumAux rest
  | '_' :: [] => false
  | c :: rest => c.isDigit && validNumAux rest

/-- Unsigned part of the Python int() grammar for decimal literals: non-empty,
digits with single underscores allowed between digits. -/
def validNum : List Char → Bool
  | [] => false
  | c :: rest => c.isDigit && validNumAux rest

/-- Python int() on a string, for ASCII decimal literals: surrounding
whitespace is stripped, an optional single sign may precede the digits,
underscores may separate digits; anything else fails. -/
def parsePyInt (l : List Char) : Option Int :=
  match trimLine l with
  | '-' :: ds => if validNum ds then some (-(parseNat (ds.filter (fun c => c ≠ '_')) : Int)) else none
  | '+' :: ds => if validNum ds then some ((parseNat (ds.filter (fun c => c ≠ '_')) : Nat) : Int) else none
  | ds => if validNum ds then some ((parseNat (ds.filter (fun c => c ≠ '_')) : Nat) : Int) else none

/-- Source `_int_or_default` (core.py:409): Python int() of the value, or the
default when parsing raises. -/
def _int_or_default (value : List Char) (default : Int) : Int :=
  (parsePyInt value).getD default

/-- Resource sizing computation of `_ensure_docker_host_darwin`
(core.py:478-488), as a pure function of the parsed cpu count, memory bytes
and disk kilobytes.  Python floor division is Int.fdiv. -/
def sizing (cpus mem_bytes disk_total_kb : Int) : Int × Int × Int :=
  let memory_mb := (((mem_bytes.fdiv 1024).fdiv 1024) * 80).fdiv 100
  let memory_mb := if memory_mb < 512 then 512 else memory_mb
  let disk_size_gb := ((((disk_total_kb * 80).fdiv 100).fdiv 1024)).fdiv 1024
  let disk_size_gb := if disk_size_gb < 10 then 10 else disk_size_gb
  (cpus, memory_mb, disk_size_gb)

/-- Sizing applied to the raw probe strings, with the fallbacks of the source
(1 cpu, 0 memory bytes, 0 disk kilobytes) for unparsable probes
(core.py:478-480). -/
def sizing_raw (cpus_raw mem_raw disk_raw : List Char) : Int × Int × Int :=
  sizing (_int_or_default cpus_raw 1) (_int_or_default mem_raw 0)
    (_int_or_default disk_raw 0)

/-- Python s.split(sep, 1) for sep = "://", on character lists: split at the
first occurrence, or none when the separator does not occur (in which case
the Python result has length 1 and the code under test does nothing). -/
def splitUri : List Char → Option (List Char × List Char)
  | [] => none
  | c :: rest =>
    if c = ':' ∧ rest.take 2 = ['/', '/'] then some ([], rest.drop 2)
    else
      match splitUri rest with
      | some (a, b) => some (c :: a, b)
      | none => none

/-- URI-to-path step of `_ensure_docker_host_darwin` (core.py:548-553 and
582-587): strip the scheme at the first occurrence of the separator, then
keep the suffix from the first slash of the remainder; none when either the
separator or the slash is missing (Python find returning -1). -/
def socket_from_uri (uri : List Char) : Option (List Char) :=
  match splitUri uri with
  | some (_, after_scheme) =>
    match after_scheme.dropWhile (fun c => c ≠ '/') with
    | [] => none
    | l => some l
  | none => none

/-- Python str.split() with no argument: split on whitespace runs, dropping
empty fields. -/
def splitWs (l : List Char) : List (List Char) :=
  (l.splitOnP Char.isWhitespace).filter (fun f => f ≠ [])

/-- Default-connection scan of `_ensure_docker_host_darwin` (core.py:578-588):
first line whose whitespace fields are exactly a literal true marker and a
URI from which a path can be extracted; later lines are tried when the
extraction fails. -/
def scan_connections : List (List Char) → Option (List Char)
  | [] => none
  | line :: rest =>
    match splitWs line with
    | [a, b] =>
      if a = ['t', 'r', 'u', 'e'] then
        match socket_from_uri b with
        | some s => some s
        | none => scan_connections rest
      else scan_connections rest
    | _ => scan_connections rest

/-- Canonical per-user rootless podman socket path
(core.py:570 and core.py:591). -/
def user_sock (uid : Nat) : List Char :=
  "/run/user/".toList ++ (toString uid).toList ++ "/podman/podman.sock".toList

/-- Rootful flag of `_ensure_docker_host_darwin` (core.py:555-568): the
stripped probe output, defaulting to the literal true string when empty,
lower-cased and compared against the literal false string. -/
def rootful_of (rootful_out : List Char) : Bool :=
  let rootful_str :=
    if trimLine rootful_out = [] then ['t', 'r', 'u', 'e'] else trimLine rootful_out
  rootful_str.map Char.toLower ≠ ['f', 'a', 'l', 's', 'e']

/-- Derivation of the VM-internal socket path in `_ensure_docker_host_darwin`
(core.py:531-591): parse the connection URI; override with the per-user path
when the machine reports rootless mode; when still undetermined scan the
default connection listing; finally fall back to the per-user path. -/
def vm_socket_of (uri_out rootful_out : List Char) (conn_ls : List (List Char))
    (uid : Nat) : List Char :=
  let uri := trimLine uri_out
  let v1 : List Char :=
    if uri = [] then []
    else
      match socket_from_uri uri with
      | some s => s
      | none => []
  let v2 := if rootful_of rootful_out then v1 else user_sock uid
  let v3 :=
    if v2 = [] then
      match scan_connections conn_ls with
      | some s => s
      | none => []
    else v2
  if v3 = [] then user_sock uid else v3

/-- Observable commands and writes issued by the Darwin-side provisioner and
watcher, in program order. -/
inductive Event where
  | machineInit (cpus memMb diskGb : Int)
  | machineStart
  | writeState (contents : Option (List (List Char)))
  | spawnWatcher (pid : Int)
  | prune
  | machineStop
  | unlinkState
deriving DecidableEq, Repr

/-- External-world inputs of one run of `_ensure_docker_host_darwin`: command
outputs are raw stdout text, `inspect_ok` is whether the existence probe
exits zero, `df_fields` are the whitespace fields of the second line of the
disk probe, `file0` the state file contents before the call. -/
structure DarwinEnv where
  inspect_ok : Bool
  state_out : List Char
  cpus_out : List Char
  mem_out : List Char
  df_fields : List (List Char)
  host_sock_out : List Char
  uri_out : List Char
  rootful_out : List Char
  conn_ls : List (List Char)
  uid : Nat
  file0 : Option (List (List Char))

/-- Outcome of one run of `_ensure_docker_host_darwin`: the returned mapping
or the raised error, the issued events in order, and the final state-file
contents. -/
structure DarwinRun where
  result : Except Err (List (List Char × List Char))
  events : List Event
  file : Option (List (List Char))
deriving Repr

/-- Machine state as seen by `_ensure_docker_host_darwin` (core.py:455-505): a
probed state string when the machine exists, the literal stopped state right
after creating it. -/
def darwin_machine_state (env : DarwinEnv) : List Char :=
  if env.inspect_ok then trimLine env.state_out else "stopped".toList

/-- Creation step of `_ensure_docker_host_darwin` (core.py:469-505): when the
existence probe fails, the capacity probes are parsed with their fallbacks,
the sizing heuristic applied, and the machine created with the result. -/
def darwin_init_events (env : DarwinEnv) : List Event :=
  if env.inspect_ok then []
  else
    let disk_raw := (env.df_fields[1]?).getD ['0']
    let s := sizing_raw (trimLine env.cpus_out) (trimLine env.mem_out) disk_raw
    [Event.machineInit s.1 s.2.1 s.2.2]

/-- Commands issued by `_ensure_docker_host_darwin` before the state-file
write: the optional machine creation, then a start when the machine state is
not running (core.py:469-508). -/
def darwin_pre_events (env : DarwinEnv) : List Event :=
  if darwin_machine_state env ≠ "running".toList then
    darwin_init_events env ++ [Event.machineStart]
  else darwin_init_events env

/-- Source `_ensure_docker_host_darwin` (core.py:448-598).  When the machine
existence probe fails, host capacity is probed, the sizing heuristic applied
and the machine created (state treated as stopped); a non-running machine is
started; the parent pid is united with the alive pids read from the state
file and written back; then the host-facing socket path is queried, an empty
answer raising the provision error; otherwise the VM socket path is derived,
the watcher spawned, and the connection mapping returned. -/
def _ensure_docker_host_darwin (env : DarwinEnv) (alive : Int → Bool)
    (parent_pid : Int) : DarwinRun :=
  let all_pids := parent_pid :: _read_state_list alive env.file0
  let file1 := _write_state_pids env.file0 all_pids
  let ev2 := darwin_pre_events env ++ [Event.writeState file1]
  let host_socket := trimLine env.host_sock_out
  if host_socket = [] then
    { result := Except.error Err.provisionError, events := ev2, file := file1 }
  else
    let vm_socket := vm_socket_of env.uri_out env.rootful_out env.conn_ls env.uid
    { result := Except.ok
        [("DOCKER_HOST".toList, "unix://".toList ++ host_socket),
         ("DOCKER_SOCKET".toList, vm_socket)],
      events := ev2 ++ [Event.spawnWatcher parent_pid],
      file := file1 }

/-- Source `watch_darwin` (core.py:601-631), modelled from the point at which
the parent-liveness loop has exited: read the dependent set, drop the parent
pid; when dependents remain, persist the reduced set and stop; when none
remain, issue the prune command, the stop command, and delete the state file
(the unlink swallows a missing file).  The source performs no argument
validation and raises nothing, hence the result is always ok. -/
def watch_darwin (alive : Int → Bool) (machine_name : List Char)
    (parent_pid : Int) (file : Option (List (List Char))) :
    Except Err (List Event × Option (List (List Char))) :=
  let remaining := (_read_state_pids alive file).erase parent_pid
  if remaining = ∅ then
    Except.ok ([Event.prune, Event.machineStop, Event.unlinkState], none)
  else
    let newFile := _write_state_pids file
      ((_read_state_list alive file).filter (fun p => p ≠ parent_pid))
    Except.ok ([Event.writeState newFile], newFile)

/-- Kind of filesystem node found by stat, or none for FileNotFoundError. -/
inductive NodeKind where
  | socketNode
  | regularFile
  | directory
  | otherNode
deriving DecidableEq, Repr

/-- Source `_is_socket` (core.py:440): a missing path is not a socket,
otherwise the stat mode must be of socket type. -/
def _is_socket (st : Option NodeKind) : Bool :=
  match st with
  | none => false
  | some k => k = NodeKind.socketNode

/-- Readiness poll of `_ensure_docker_host_linux` (core.py:650-653): up to 50
probes of the socket path, stopping at the first that reports a socket node;
`probe i` is the stat outcome at attempt i. -/
def pollSocket (probe : Nat → Option NodeKind) : Option Nat :=
  (List.range 50).find? (fun i => _is_socket (probe i))

/-- Socket path of the service-backed variant (core.py:635), an f-string of
the run directory and the parent pid. -/
def linux_socket_path (run_dir : List Char) (parent_pid : Int) : List Char :=
  run_dir ++ "/podman-docker-".toList ++ (toString parent_pid).toList ++ ".sock".toList

/-- External-world inputs of one run of `_ensure_docker_host_linux`: the run
directory and the stat outcome of the socket path at each poll attempt. -/
structure LinuxProvEnv where
  run_dir : List Char
  probe : Nat → Option NodeKind

/-- Outcome of one run of `_ensure_docker_host_linux`: the returned mapping or
the raised error, whether the termination signal was sent to the spawned
service, and whether the watcher was spawned. -/
structure LinuxRun where
  result : Except Err (List (List Char × List Char))
  termSent : Bool
  watcherSpawned : Bool

/-- Source `_ensure_docker_host_linux` (core.py:634-668): remove any stale
socket, launch the service, poll for the socket node; on exhaustion send the
termination signal and raise the provision error; on success spawn the
watcher and return the connection mapping. -/
def _ensure_docker_host_linux (env : LinuxProvEnv) (parent_pid : Int) : LinuxRun :=
  let socket_path := linux_socket_path env.run_dir parent_pid
  match pollSocket env.probe with
  | some _ =>
    { result := Except.ok
        [("DOCKER_HOST".toList, "unix://".toList ++ socket_path),
         ("DOCKER_SOCKET".toList, socket_path)],
      termSent := false,
      watcherSpawned := true }
  | none =>
    { result := Except.error Err.provisionError,
      termSent := true,
      watcherSpawned := false }

/-- Observable steps of the service-variant watcher teardown. -/
inductive LEvent where
  | sigterm
  | sigint
  | sigkill
  | unlinkSock
deriving DecidableEq, Repr

/-- External-world inputs of the `watch_linux` teardown: whether each signal
attempt raises OSError, and service liveness sampled after each signal and
at the final escalation check. -/
structure LinuxWatchEnv where
  termRaises : Bool
  aliveAfterTerm : Bool
  intRaises : Bool
  aliveAfterInt : Bool
  aliveAtKillCheck : Bool

/-- Source `watch_linux` (core.py:671-693), modelled from the point at which
the parent-liveness loop has exited: try the termination signal then the
interrupt signal, stopping early when a signal raises or the service has
died; escalate to the kill signal when the service is still alive; finally
unlink the socket (missing file swallowed).  The source performs no argument
validation and raises nothing, hence the result is always ok. -/
def watch_linux (env : LinuxWatchEnv) (parent_pid service_pid : Int) :
    Except Err (List LEvent) :=
  let loopEvents : List LEvent :=
    if env.termRaises then [LEvent.sigterm]
    else if ¬ env.aliveAfterTerm then [LEvent.sigterm]
    else if env.intRaises then [LEvent.sigterm, LEvent.sigint]
    else [LEvent.sigterm, LEvent.sigint]
  let escalated :=
    if env.aliveAtKillCheck then loopEvents ++ [LEvent.sigkill] else loopEvents
  Except.ok (escalated ++ [LEvent.unlinkSock])

/-- Modelled from the spec: the module-level container-CLI command name
`docker` is exported by the package __init__ but its definition is not among
the provided sources; the spec treats the notification sink as an opaque
shell-out, so the command name is modelled as an opaque constant string. -/
def docker : List Char := "docker".toList

/-- External-world inputs of one `notify` call: the NOTIFY and JOB environment
variables and whether the delivery subprocess raises. -/
structure NotifyEnv where
  env_notify : List Char
  env_job : Option (List Char)
  runRaises : Bool

/-- Observable outcome of one `notify` call: whether a delivery attempt was
made and whether a failure line was written to stderr. -/
structure NotifyOut where
  ran : Bool
  errReported : Bool
deriving DecidableEq, Repr

/-- URL list computation of `notify` (core.py:48-49): split the configured
value on commas, strip each entry, keep the non-empty ones. -/
def notify_urls (urls_value : List Char) : List (List Char) :=
  ((urls_value.splitOnP (fun c => c = ',')).map trimLine).filter (fun u => u ≠ [])

/-- URL source selection of `notify` (core.py:48): the explicit argument when
given, else the NOTIFY environment variable. -/
def urls_value_of (env : NotifyEnv) (url : Option (List Char)) : List Char :=
  match url with
  | some u => u
  | none => env.env_notify

/-- Source `notify` (core.py:41-68): with no configured URL it returns without
running anything; otherwise the delivery command (built from the opaque
`docker` command name) is run inside a try block whose handler swallows the
exception and writes to stderr, so the call always returns normally. -/
def notify (env : NotifyEnv) (message : List Char) (title url : Option (List Char)) :
    Except Err NotifyOut :=
  let urls := notify_urls (urls_value_of env url)
  if urls = [] then Except.ok { ran := false, errReported := false }
  else if env.runRaises then Except.ok { ran := true, errReported := true }
  else Except.ok { ran := true, errReported := false }

/-- Source `ensure_docker_host` (core.py:696-705): reject a non-positive
parent pid, dispatch on the OS name, and reject any OS other than the two
supported ones. -/
def ensure_docker_host (denv : DarwinEnv) (lenv : LinuxProvEnv)
    (alive : Int → Bool) (system : List Char) (parent_pid : Int) :
    Except Err (List (List Char × List Char)) :=
  if parent_pid ≤ 0 then Except.error Err.invalidArgument
  else if system = "Darwin".toList then (_ensure_docker_host_darwin denv alive parent_pid).result
  else if system = "Linux".toList then (_ensure_docker_host_linux lenv parent_pid).result
  else Except.error Err.unsupportedPlatform

deriving instance DecidableEq for Except

/-- Sample environment for witnesses: the machine exists and runs but the
host-socket query returns empty output. -/
def darwinFailEnv : DarwinEnv :=
  { inspect_ok := true, state_out := "running".toList, cpus_out := [], mem_out := [],
    df_fields := [], host_sock_out := [], uri_out := [], rootful_out := [],
    conn_ls := [], uid := 501, file0 := none }

/-- Sample environment for witnesses: a successful Darwin provisioning run. -/
def darwinOkEnv : DarwinEnv :=
  { inspect_ok := true, state_out := "running".toList, cpus_out := [], mem_out := [],
    df_fields := [], host_sock_out := "/tmp/podman.sock".toList, uri_out := [],
    rootful_out := [], conn_ls := [], uid := 501, file0 := none }

/-- Sample environment for witnesses: the socket node never appears. -/
def linuxNoSockEnv : LinuxProvEnv :=
  { run_dir := "/root/.tinyorch/run".toList, probe := fun _ => none }

/-- Sample environment for witnesses: the socket node is present at once. -/
def linuxSockEnv : LinuxProvEnv :=
  { run_dir := "/root/.tinyorch/run".toList, probe := fun _ => some NodeKind.socketNode }

/-- Sample environment for witnesses: a configured URL and a failing delivery
subprocess. -/
def notifyFailEnv : NotifyEnv :=
  { env_notify := "pover://k".toList, env_job := none, runRaises := true }

theorem digitVal_digitChar {d : Nat} (h : d < 10) : digitVal (Nat.digitChar d) = d := by
  interval_cases d <;> decide

theorem isDigit_digitChar {d : Nat} (h : d < 10) : (Nat.digitChar d).isDigit = true := by
  interval_cases d <;> decide

theorem not_ws_of_isDigit {c : Char} (h : c.isDigit = true) : c.isWhitespace = false := by
  cases hw : c.isWhitespace with
  | false => rfl
  | true =>
    exfalso
    have hw' : ((c = ' ' ∨ c = '\t') ∨ c = '\r') ∨ c = '\n' := by
      simpa [Char.isWhitespace] using hw
    rcases hw' with ((h1 | h1) | h1) | h1 <;> subst h1 <;> exact absurd h (by decide)

theorem dropWhile_eq_self_of (p : Char → Bool) (l : List Char)
    (h : ∀ c ∈ l, p c = false) : l.dropWhile p = l := by
  cases l with
  | nil => rfl
  | cons a as => simp [List.dropWhile_cons, h a (List.mem_cons_self a as)]

theorem trimLine_of_digits (l : List Char) (h : ∀ c ∈ l, c.isDigit = true) :
    trimLine l = l := by
  unfold trimLine
  rw [dropWhile_eq_self_of _ _ fun c hc => not_ws_of_isDigit (h c hc)]
  rw [dropWhile_eq_self_of _ _ fun c hc =>
    not_ws_of_isDigit (h c (List.mem_reverse.mp hc))]
  exact List.reverse_reverse l

theorem printNatAux_eq (fuel : Nat) : ∀ n, n ≤ fuel →
    printNatAux fuel n = ((Nat.digits 10 n).map Nat.digitChar).reverse := by
  induction fuel with
  | zero =>
    intro n h
    have hn : n = 0 := Nat.le_zero.mp h
    subst hn
    simp [printNatAux]
  | succ fuel ih =>
    intro n h
    by_cases hn : n = 0
    · subst hn; simp [printNatAux]
    · have hd : Nat.digits 10 n = n % 10 :: Nat.digits 10 (n / 10) :=
        Nat.digits_def' (by norm_num) (Nat.pos_of_ne_zero hn)
      have hlt : n / 10 < n := Nat.div_lt_self (Nat.pos_of_ne_zero hn) (by norm_num)
      have hle : n / 10 ≤ fuel := by omega
      simp [printNatAux, hn, ih _ hle, hd]

theorem printNat_eq {n : Nat} (h : 0 < n) :
    printNat n = ((Nat.digits 10 n).map Nat.digitChar).reverse := by
  unfold printNat
  rw [if_neg (by omega : ¬ n = 0)]
  exact printNatAux_eq n n le_rfl

theorem parseNat_printNat (n : Nat) : parseNat (printNat n) = n := by
  by_cases hn : n = 0
  · subst hn; decide
  · rw [printNat_eq (Nat.pos_of_ne_zero hn)]
    unfold parseNat
    rw [List.map_reverse, List.reverse_reverse, List.map_map]
    have hmap : (Nat.digits 10 n).map (digitVal ∘ Nat.digitChar) = Nat.digits 10 n := by
      conv_rhs => rw [← List.map_id (Nat.digits 10 n)]
      refine List.map_congr_left fun d hd => ?_
      exact digitVal_digitChar (Nat.digits_lt_base (by norm_num) hd)
    rw [hmap]
    exact Nat.ofDigits_digits 10 n

theorem printNat_all_digits (n : Nat) : ∀ c ∈ printNat n, c.isDigit = true := by
  by_cases hn : n = 0
  · subst hn
    intro c hc
    have : c = '0' := by simpa [printNat] using hc
    subst this
    decide
  · rw [printNat_eq (Nat.pos_of_ne_zero hn)]
    intro c hc
    rw [List.mem_reverse] at hc
    obtain ⟨d, hd, rfl⟩ := List.mem_map.mp hc
    exact isDigit_digitChar (Nat.digits_lt_base (by norm_num) hd)

theorem printNat_ne_nil (n : Nat) : printNat n ≠ [] := by
  by_cases hn : n = 0
  · subst hn; decide
  · rw [printNat_eq (Nat.pos_of_ne_zero hn)]
    have h1 : Nat.digits 10 n ≠ [] := Nat.digits_ne_nil_iff_ne_zero.mpr hn
    simp [h1]

theorem isdigitLine_true {l : List Char} (h0 : l ≠ [])
    (h : ∀ c ∈ l, c.isDigit = true) : isdigitLine l = true := by
  unfold isdigitLine
  cases l with
  | nil => exact absurd rfl h0
  | cons a as =>
    simp only [List.isEmpty_cons, Bool.not_false, Bool.true_and, List.all_eq_true]
    exact h

theorem pos_of_pid_alive {alive : Int → Bool} {x : Int}
    (h : _pid_alive alive x = true) : 0 < x := by
  unfold _pid_alive at h
  by_cases hx : x ≤ 0
  · rw [if_pos hx] at h; exact absurd h (by decide)
  · omega

theorem pid_alive_of_nonpos {alive : Int → Bool} {x : Int} (h : x ≤ 0) :
    _pid_alive alive x = false := by
  unfold _pid_alive
  rw [if_pos h]

theorem pid_alive_of_pos_true {x : Int} (h : 0 < x) :
    _pid_alive (fun _ => true) x = true := by
  unfold _pid_alive
  rw [if_neg (by omega : ¬ x ≤ 0)]

theorem readLine_printNat (alive : Int → Bool) {p : Int} (hp : 0 < p) :
    readLine alive (printNat p.toNat) =
      if _pid_alive alive p then some p else none := by
  unfold readLine
  have hd := printNat_all_digits p.toNat
  have hn : printNat p.toNat ≠ [] := printNat_ne_nil p.toNat
  simp only [trimLine_of_digits _ hd, isdigitLine_true hn hd, if_true,
    parseNat_printNat]
  rw [Int.toNat_of_nonneg (le_of_lt hp)]

theorem filterMap_if_mem (f : List Char → Option Int) (q : Int → Bool)
    (g : Int → List Char) (l : List Int)
    (h : ∀ a ∈ l, f (g a) = if q a then some a else none) :
    (l.map g).filterMap f = l.filter q := by
  induction l with
  | nil => rfl
  | cons a as ih =>
    rw [List.map_cons, List.filterMap_cons, List.filter_cons,
      h a (List.mem_cons_self a as)]
    have ih' := ih fun b hb => h b (List.mem_cons_of_mem a hb)
    by_cases hq : q a = true
    · simp [hq, ih']
    · rw [Bool.not_eq_true] at hq
      simp [hq, ih']

theorem insortAux_ne_nil (x : Int) (l : List Int) : insortAux x l ≠ [] := by
  cases l with
  | nil => simp [insortAux]
  | cons a as =>
    unfold insortAux
    split <;> simp

theorem mem_insortAux {x y : Int} {l : List Int} :
    x ∈ insortAux y l ↔ x = y ∨ x ∈ l := by
  induction l with
  | nil => simp [insortAux]
  | cons a as ih =>
    unfold insortAux
    by_cases h : y ≤ a
    · rw [if_pos h]
      simp
    · rw [if_neg h]
      simp only [List.mem_cons, ih]
      tauto

theorem mem_insort {x : Int} {l : List Int} : x ∈ insort l ↔ x ∈ l := by
  induction l with
  | nil => simp [insort]
  | cons a as ih =>
    unfold insort
    rw [mem_insortAux, ih, List.mem_cons]

theorem insort_eq_nil {l : List Int} : insort l = [] ↔ l = [] := by
  cases l with
  | nil => simp [insort]
  | cons a as =>
    simp only [insort]
    exact ⟨fun h => absurd h (insortAux_ne_nil a (insort as)), fun h => absurd h (by simp)⟩

theorem mem_read_write (alive : Int → Bool) (prev : Option (List (List Char)))
    (pids : List Int) (x : Int) :
    x ∈ _read_state_pids alive (_write_state_pids prev pids) ↔
      x ∈ pids ∧ _pid_alive alive x = true := by
  unfold _write_state_pids
  set uniq := insort (pids.filter (fun p => 0 < p)).dedup with huniq
  have hmemu : ∀ y, y ∈ uniq ↔ y ∈ pids ∧ 0 < y := by
    intro y
    rw [huniq, mem_insort, List.mem_dedup, List.mem_filter]
    simp
  by_cases h : uniq = []
  · rw [if_pos h]
    have hread : _read_state_pids alive (match prev with
        | none => none
        | some _ => none) = ∅ := by
      cases prev <;> rfl
    rw [hread]
    simp only [Finset.not_mem_empty, false_iff]
    rintro ⟨hx, ha⟩
    have hpos := pos_of_pid_alive ha
    have hmem : x ∈ uniq := (hmemu x).mpr ⟨hx, hpos⟩
    rw [h] at hmem
    exact absurd hmem (List.not_mem_nil x)
  · rw [if_neg h]
    have hposu : ∀ p ∈ uniq, 0 < p := fun p hp => ((hmemu p).mp hp).2
    have hfm : (uniq.map (fun p => printNat p.toNat)).filterMap (readLine alive) =
        uniq.filter (fun p => _pid_alive alive p) := by
      refine filterMap_if_mem _ _ _ _ fun a ha => ?_
      exact readLine_printNat alive (hposu a ha)
    have hrs : _read_state_pids alive (some (uniq.map fun p => printNat p.toNat)) =
        ((uniq.map fun p => printNat p.toNat).filterMap (readLine alive)).toFinset := rfl
    rw [hrs, hfm, List.mem_toFinset, List.mem_filter]
    constructor
    · rintro ⟨hu, ha⟩
      exact ⟨((hmemu x).mp hu).1, ha⟩
    · rintro ⟨hx, ha⟩
      exact ⟨(hmemu x).mpr ⟨hx, pos_of_pid_alive ha⟩, ha⟩

theorem pid_alive_of_mem_read {alive : Int → Bool} {x : Int}
    {file : Option (List (List Char))} (h : x ∈ _read_state_pids alive file) :
    _pid_alive alive x = true := by
  cases file with
  | none => simp [_read_state_pids, _read_state_list] at h
  | some lines =>
    rw [show _read_state_pids alive (some lines) =
        (lines.filterMap (readLine alive)).toFinset from rfl,
      List.mem_toFinset] at h
    obtain ⟨line, hline, hr⟩ := List.mem_filterMap.mp h
    unfold readLine at hr
    by_cases hd : isdigitLine (trimLine line) = true
    · rw [if_pos hd] at hr
      by_cases ha : _pid_alive alive ((parseNat (trimLine line) : Nat) : Int) = true
      · rw [if_pos ha] at hr
        obtain rfl : ((parseNat (trimLine line) : Nat) : Int) = x := by
          exact Option.some_injective _ hr
        exact ha
      · rw [if_neg ha] at hr
        exact absurd hr (by simp)
    · rw [if_neg hd] at hr
      exact absurd hr (by simp)

/-- C1: ensure_docker_host rejects a non-positive parent pid with
InvalidArgument (a ValueError) on every platform, the non-positive check
preceding the platform check, and for a positive pid rejects any OS other
than Darwin and Linux with UnsupportedPlatform (a RuntimeError). -/
theorem C1_dispatch_errors (denv : DarwinEnv) (lenv : LinuxProvEnv)
    (alive : Int → Bool) (system : List Char) (parent_pid : Int) :
    (parent_pid ≤ 0 →
      ensure_docker_host denv lenv alive system parent_pid =
        Except.error Err.invalidArgument ∧
      Err.invalidArgument.pyClass = PyExc.valueError) ∧
    (0 < parent_pid → system ≠ "Darwin".toList → system ≠ "Linux".toList →
      ensure_docker_host denv lenv alive system parent_pid =
        Except.error Err.unsupportedPlatform ∧
      Err.unsupportedPlatform.pyClass = PyExc.runtimeError) := by
  constructor
  · intro h
    refine ⟨?_, rfl⟩
    unfold ensure_docker_host
    rw [if_pos h]
  · intro h h1 h2
    refine ⟨?_, rfl⟩
    unfold ensure_docker_host
    rw [if_neg (by omega : ¬ parent_pid ≤ 0), if_neg h1, if_neg h2]

theorem C1_dispatch_errors_witness :
    ensure_docker_host darwinFailEnv linuxNoSockEnv (fun _ => false)
        "Windows".toList (-3) = Except.error Err.invalidArgument ∧
    ensure_docker_host darwinFailEnv linuxNoSockEnv (fun _ => false)
        "Windows".toList 5 = Except.error Err.unsupportedPlatform :=
  ⟨((C1_dispatch_errors darwinFailEnv linuxNoSockEnv (fun _ => false)
      "Windows".toList (-3)).1 (by decide)).1,
   ((C1_dispatch_errors darwinFailEnv linuxNoSockEnv (fun _ => false)
      "Windows".toList 5).2 (by decide) (by decide) (by decide)).1⟩

/-- C2: writing a collection of alive positive pids and reading it back
yields exactly the deduplicated set; writing a collection with no positive
pid deletes the file whether or not it exists; reading a missing file yields
the empty set. -/
theorem C2_refcount_roundtrip (alive : Int → Bool)
    (prev : Option (List (List Char))) (pids : List Int) :
    ((∀ p ∈ pids, _pid_alive alive p = true) →
      _read_state_pids alive (_write_state_pids prev pids) = pids.toFinset) ∧
    ((∀ p ∈ pids, p ≤ 0) → _write_state_pids prev pids = none) ∧
    _read_state_pids alive none = ∅ := by
  refine ⟨?_, ?_, by simp [_read_state_pids, _read_state_list]⟩
  · intro h
    ext x
    rw [mem_read_write, List.mem_toFinset]
    exact ⟨fun hx => hx.1, fun hx => ⟨hx, h x hx⟩⟩
  · intro h
    unfold _write_state_pids
    have hf : pids.filter (fun p => 0 < p) = [] := by
      rw [List.filter_eq_nil]
      intro a ha
      have ha' := h a ha
      simp only [decide_eq_true_eq]
      omega
    rw [hf]
    cases prev <;> rfl

theorem C2_refcount_roundtrip_witness :
    _read_state_pids (fun q => decide (q = 3) || decide (q = 7))
        (_write_state_pids none [3, 3, 7]) = ([3, 3, 7] : List Int).toFinset :=
  (C2_refcount_roundtrip (fun q => decide (q = 3) || decide (q = 7)) none
    [3, 3, 7]).1 (by decide)

/-- C5: the sizing computation is a pure function of the parsed probes, with
memory at eighty percent of total in MB floored at 512 and disk at eighty
percent of the probed kilobytes in GB floored at 10; unparsable probes fall
back to the caller-supplied default before the floors; the two concrete
evaluations of the claim hold. -/
theorem C5_sizing_pure :
    sizing 4 17179869184 104857600 = (4, 13107, 80) ∧
    sizing 1 0 0 = (1, 512, 10) ∧
    (∀ raw d, parsePyInt raw = none → _int_or_default raw d = d) ∧
    (∀ c m k : Int, sizing c m k =
      (c, max 512 ((((m.fdiv 1024).fdiv 1024) * 80).fdiv 100),
        max 10 ((((k * 80).fdiv 100).fdiv 1024).fdiv 1024))) := by
  refine ⟨by decide, by decide, ?_, ?_⟩
  · intro raw d h
    unfold _int_or_default
    rw [h]
    rfl
  · intro c m k
    unfold sizing
    dsimp only
    generalize (((m.fdiv 1024).fdiv 1024) * 80).fdiv 100 = A
    generalize (((k * 80).fdiv 100).fdiv 1024).fdiv 1024 = B
    rw [Prod.mk.injEq, Prod.mk.injEq]
    refine ⟨rfl, ?_, ?_⟩ <;> split <;> omega

theorem C5_sizing_pure_witness : _int_or_default "banana".toList 1 = 1 :=
  C5_sizing_pure.2.2.1 "banana".toList 1 (by decide)

/-- C6: the service-variant readiness poll makes at most 50 attempts; when no
attempt observes a socket-type node the provisioner signals the spawned
service and fails with ProvisionError without spawning the watcher; when an
attempt within the bound observes the socket it returns the DOCKER_HOST and
DOCKER_SOCKET mapping for the per-parent socket path. -/
theorem C6_socket_poll (env : LinuxProvEnv) (parent_pid : Int) :
    ((∀ i, i < 50 → _is_socket (env.probe i) = false) →
      (_ensure_docker_host_linux env parent_pid).result =
        Except.error Err.provisionError ∧
      (_ensure_docker_host_linux env parent_pid).termSent = true ∧
      (_ensure_docker_host_linux env parent_pid).watcherSpawned = false) ∧
    ((∃ i, i < 50 ∧ _is_socket (env.probe i) = true) →
      (_ensure_docker_host_linux env parent_pid).result = Except.ok
        [("DOCKER_HOST".toList,
          "unix://".toList ++ linux_socket_path env.run_dir parent_pid),
         ("DOCKER_SOCKET".toList, linux_socket_path env.run_dir parent_pid)] ∧
      (_ensure_docker_host_linux env parent_pid).termSent = false ∧
      (_ensure_docker_host_linux env parent_pid).watcherSpawned = true) := by
  constructor
  · intro h
    have hp : pollSocket env.probe = none := by
      unfold pollSocket
      rw [List.find?_eq_none]
      intro i hi
      rw [List.mem_range] at hi
      simp [h i hi]
    unfold _ensure_docker_host_linux
    rw [hp]
    exact ⟨rfl, rfl, rfl⟩
  · rintro ⟨i, hi, hs⟩
    cases hj : pollSocket env.probe with
    | none =>
      exfalso
      unfold pollSocket at hj
      rw [List.find?_eq_none] at hj
      have hni := hj i (List.mem_range.mpr hi)
      simp [hs] at hni
    | some j =>
      unfold _ensure_docker_host_linux
      rw [hj]
      exact ⟨rfl, rfl, rfl⟩

theorem C6_socket_poll_witness :
    (_ensure_docker_host_linux linuxNoSockEnv 5).result =
      Except.error Err.provisionError ∧
    (_ensure_docker_host_linux linuxSockEnv 5).termSent = false :=
  ⟨((C6_socket_poll linuxNoSockEnv 5).1 (fun i _ => rfl)).1,
   ((C6_socket_poll linuxSockEnv 5).2 ⟨0, by omega, rfl⟩).2.1⟩

/-- C9: notify never propagates an exception: for every configuration,
including a non-empty URL list, it returns normally, and a delivery failure
with configured URLs is only reported on stderr. -/
theorem C9_notify_never_raises (env : NotifyEnv) (message : List Char)
    (title url : Option (List Char)) :
    (∃ out, notify env message title url = Except.ok out) ∧
    (notify_urls (urls_value_of env url) ≠ [] → env.runRaises = true →
      notify env message title url =
        Except.ok { ran := true, errReported := true }) := by
  constructor
  · unfold notify
    dsimp only
    split
    · exact ⟨_, rfl⟩
    · split
      · exact ⟨_, rfl⟩
      · exact ⟨_, rfl⟩
  · intro hne hr
    unfold notify
    dsimp only
    rw [if_neg hne, if_pos hr]

theorem C9_notify_never_raises_witness :
    notify notifyFailEnv "m".toList none none =
      Except.ok { ran := true, errReported := true } :=
  (C9_notify_never_raises notifyFailEnv "m".toList none none).2 (by decide) rfl

theorem darwin_file_eq (env : DarwinEnv) (alive : Int → Bool) (parent_pid : Int) :
    (_ensure_docker_host_darwin env alive parent_pid).file =
      _write_state_pids env.file0 (parent_pid :: _read_state_list alive env.file0) := by
  unfold _ensure_docker_host_darwin
  dsimp only
  split <;> rfl

theorem mem_darwin_state_file (env : DarwinEnv) (alive : Int → Bool)
    {parent_pid : Int} (hp : 0 < parent_pid) :
    parent_pid ∈ _read_state_pids (fun _ => true)
      (_ensure_docker_host_darwin env alive parent_pid).file := by
  rw [darwin_file_eq, mem_read_write]
  exact ⟨List.mem_cons_self _ _, pid_alive_of_pos_true hp⟩

theorem darwin_result_error (env : DarwinEnv) (alive : Int → Bool) (parent_pid : Int)
    (h : trimLine env.host_sock_out = []) :
    (_ensure_docker_host_darwin env alive parent_pid).result =
      Except.error Err.provisionError := by
  unfold _ensure_docker_host_darwin
  dsimp only
  rw [if_pos h]

theorem darwin_events_ok (env : DarwinEnv) (alive : Int → Bool) (parent_pid : Int)
    (h : trimLine env.host_sock_out ≠ []) :
    (_ensure_docker_host_darwin env alive parent_pid).events =
      darwin_pre_events env ++
        [Event.writeState (_ensure_docker_host_darwin env alive parent_pid).file,
         Event.spawnWatcher parent_pid] := by
  rw [darwin_file_eq]
  unfold _ensure_docker_host_darwin
  dsimp only
  rw [if_neg h]
  dsimp only
  rw [List.append_assoc]
  rfl

theorem darwin_pre_events_ctrl (env : DarwinEnv) :
    ∀ e ∈ darwin_pre_events env,
      (∀ f, e ≠ Event.writeState f) ∧ (∀ q, e ≠ Event.spawnWatcher q) := by
  have hinit : ∀ e ∈ darwin_init_events env,
      (∀ f, e ≠ Event.writeState f) ∧ (∀ q, e ≠ Event.spawnWatcher q) := by
    intro e he
    unfold darwin_init_events at he
    split at he
    · exact absurd he (List.not_mem_nil e)
    · rw [List.mem_singleton] at he
      subst he
      exact ⟨fun f => by simp, fun q => by simp⟩
  intro e he
  unfold darwin_pre_events at he
  split at he
  · rw [List.mem_append] at he
    rcases he with he | he
    · exact hinit e he
    · rw [List.mem_singleton] at he
      subst he
      exact ⟨fun f => by simp, fun q => by simp⟩
  · exact hinit e he

/-- C3: once the parent is dead, the VM-variant watcher persists the reduced
dependent set and issues no prune, stop or delete when dependents remain
(the persisted file reads back as exactly the reduced set), and otherwise
issues the prune command, then the stop command, then deletes the state file
(also when the file is already missing). -/
theorem C3_watch_darwin_teardown (alive : Int → Bool) (machine : List Char)
    (parent_pid : Int) (file : Option (List (List Char)))
    (hdead : _pid_alive alive parent_pid = false) :
    ∃ evs newFile,
      watch_darwin alive machine parent_pid file = Except.ok (evs, newFile) ∧
      (((_read_state_pids alive file).erase parent_pid).Nonempty →
        Event.prune ∉ evs ∧ Event.machineStop ∉ evs ∧ Event.unlinkState ∉ evs ∧
        _read_state_pids alive newFile = (_read_state_pids alive file).erase parent_pid) ∧
      ((_read_state_pids alive file).erase parent_pid = ∅ →
        evs = [Event.prune, Event.machineStop, Event.unlinkState] ∧ newFile = none) := by
  by_cases hr : (_read_state_pids alive file).erase parent_pid = ∅
  · refine ⟨[Event.prune, Event.machineStop, Event.unlinkState], none, ?_, ?_,
      fun _ => ⟨rfl, rfl⟩⟩
    · unfold watch_darwin
      rw [if_pos hr]
    · intro hne
      exact absurd hr (Finset.nonempty_iff_ne_empty.mp hne)
  · refine ⟨[Event.writeState (_write_state_pids file
        ((_read_state_list alive file).filter (fun p => p ≠ parent_pid)))],
      _write_state_pids file ((_read_state_list alive file).filter (fun p => p ≠ parent_pid)),
      ?_, ?_, fun he => absurd he hr⟩
    · unfold watch_darwin
      rw [if_neg hr]
    · intro hne
      refine ⟨by simp, by simp, by simp, ?_⟩
      ext x
      rw [mem_read_write, List.mem_filter, Finset.mem_erase]
      constructor
      · rintro ⟨⟨hx, hne'⟩, ha⟩
        have hx' : x ∈ (_read_state_list alive file).toFinset := List.mem_toFinset.mpr hx
        exact ⟨by simpa using hne', hx'⟩
      · rintro ⟨hne', hx⟩
        have hxl : x ∈ _read_state_list alive file := by
          have hx' : x ∈ (_read_state_list alive file).toFinset := hx
          exact List.mem_toFinset.mp hx'
        exact ⟨⟨hxl, by simpa using hne'⟩, pid_alive_of_mem_read hx⟩

theorem C3_watch_darwin_teardown_witness :
    ∃ evs newFile,
      watch_darwin (fun _ => false) "tinyorch".toList 5 none = Except.ok (evs, newFile) ∧
      (((_read_state_pids (fun _ => false) none).erase 5).Nonempty →
        Event.prune ∉ evs ∧ Event.machineStop ∉ evs ∧ Event.unlinkState ∉ evs ∧
        _read_state_pids (fun _ => false) newFile = (_read_state_pids (fun _ => false) none).erase 5) ∧
      (((_read_state_pids (fun _ => false) none).erase 5) = ∅ →
        evs = [Event.prune, Event.machineStop, Event.unlinkState] ∧ newFile = none) :=
  C3_watch_darwin_teardown (fun _ => false) "tinyorch".toList 5 none (by decide)

/-- C4 counterexample: on the environment in which the machine runs but the
host-socket query answers empty, provisioning for parent pid 7 raises the
provision error and yet leaves pid 7 registered in the state file, contrary
to the claim that no half-registered dependent remains. -/
theorem C4_counterexample :
    (_ensure_docker_host_darwin darwinFailEnv (fun _ => false) 7).result =
      Except.error Err.provisionError ∧
    (7 : Int) ∈ _read_state_pids (fun _ => true)
      (_ensure_docker_host_darwin darwinFailEnv (fun _ => false) 7).file := by
  decide

/-- C4 amended: the registration of the parent pid happens before socket
discovery and is not rolled back, so after a provisioning failure from the
empty host-socket query the parent pid remains registered in the state
file. -/
theorem C4_no_rollback (env : DarwinEnv) (alive : Int → Bool) {parent_pid : Int}
    (hp : 0 < parent_pid)
    (hfail : (_ensure_docker_host_darwin env alive parent_pid).result =
      Except.error Err.provisionError) :
    parent_pid ∈ _read_state_pids (fun _ => true)
      (_ensure_docker_host_darwin env alive parent_pid).file :=
  mem_darwin_state_file env alive hp

theorem C4_no_rollback_witness :
    (7 : Int) ∈ _read_state_pids (fun _ => true)
      (_ensure_docker_host_darwin darwinFailEnv (fun _ => true) 7).file :=
  C4_no_rollback darwinFailEnv (fun _ => true) (by decide) (by decide)

/-- C7 counterexample: with parent pid 0, both watcher entry points return
normally and proceed to teardown instead of failing with InvalidArgument:
the VM watcher prunes, stops and deletes the state file, the service watcher
signals the service and unlinks the socket. -/
theorem C7_counterexample :
    watch_darwin (fun _ => true) "tinyorch".toList 0 none =
      Except.ok ([Event.prune, Event.machineStop, Event.unlinkState], none) ∧
    watch_darwin (fun _ => true) "tinyorch".toList 0 none ≠
      Except.error Err.invalidArgument ∧
    watch_linux ⟨false, false, false, false, false⟩ 0 9 =
      Except.ok [LEvent.sigterm, LEvent.unlinkSock] ∧
    watch_linux ⟨false, false, false, false, false⟩ 0 9 ≠
      Except.error Err.invalidArgument ∧
    _pid_alive (fun _ => true) 0 = false := by
  decide

/-- C7 amended: the watcher entry points perform no pid validation and never
raise; a non-positive parent pid is treated as already dead (the liveness
poll is false at once) and teardown proceeds. -/
theorem C7_watchers_no_validation (alive : Int → Bool) (machine : List Char)
    (env : LinuxWatchEnv) (file : Option (List (List Char)))
    {parent_pid : Int} (hp : parent_pid ≤ 0) (service_pid : Int) :
    _pid_alive alive parent_pid = false ∧
    (∃ r, watch_darwin alive machine parent_pid file = Except.ok r) ∧
    (∃ evs, watch_linux env parent_pid service_pid = Except.ok evs) := by
  refine ⟨pid_alive_of_nonpos hp, ?_, ⟨_, rfl⟩⟩
  unfold watch_darwin
  dsimp only
  split
  · exact ⟨_, rfl⟩
  · exact ⟨_, rfl⟩

theorem C7_watchers_no_validation_witness :
    _pid_alive (fun _ => true) (-2) = false ∧
    (∃ r, watch_darwin (fun _ => true) "tinyorch".toList (-2) none = Except.ok r) ∧
    (∃ evs, watch_linux ⟨false, false, false, false, false⟩ (-2) 9 = Except.ok evs) :=
  C7_watchers_no_validation (fun _ => true) "tinyorch".toList
    ⟨false, false, false, false, false⟩ none (by decide) 9

/-- C8: whenever Darwin provisioning succeeds, its event trace is some
machine-management prefix followed by exactly the state-file write and then
the watcher spawn, the prefix containing no write and no spawn, and the
state file at the moment of the spawn already contains the parent pid. -/
theorem C8_registered_before_spawn (env : DarwinEnv) (alive : Int → Bool)
    {parent_pid : Int} (hp : 0 < parent_pid)
    (hok : (_ensure_docker_host_darwin env alive parent_pid).result.isOk = true) :
    ∃ pre,
      (_ensure_docker_host_darwin env alive parent_pid).events =
        pre ++ [Event.writeState (_ensure_docker_host_darwin env alive parent_pid).file,
                Event.spawnWatcher parent_pid] ∧
      (∀ e ∈ pre, (∀ f, e ≠ Event.writeState f) ∧ (∀ q, e ≠ Event.spawnWatcher q)) ∧
      parent_pid ∈ _read_state_pids (fun _ => true)
        (_ensure_docker_host_darwin env alive parent_pid).file := by
  have hne : trimLine env.host_sock_out ≠ [] := by
    intro hempty
    rw [darwin_result_error env alive parent_pid hempty] at hok
    exact absurd hok (by decide)
  exact ⟨darwin_pre_events env, darwin_events_ok env alive parent_pid hne,
    darwin_pre_events_ctrl env, mem_darwin_state_file env alive hp⟩

theorem C8_registered_before_spawn_witness :
    ∃ pre,
      (_ensure_docker_host_darwin darwinOkEnv (fun _ => false) 7).events =
        pre ++ [Event.writeState (_ensure_docker_host_darwin darwinOkEnv (fun _ => false) 7).file,
                Event.spawnWatcher 7] ∧
      (∀ e ∈ pre, (∀ f, e ≠ Event.writeState f) ∧ (∀ q, e ≠ Event.spawnWatcher q)) ∧
      (7 : Int) ∈ _read_state_pids (fun _ => true)
        (_ensure_docker_host_darwin darwinOkEnv (fun _ => false) 7).file :=
  C8_registered_before_spawn darwinOkEnv (fun _ => false) (by decide) (by decide)

theorem user_sock_ne_nil (uid : Nat) : user_sock uid ≠ [] := by
  unfold user_sock
  rw [show "/run/user/".toList = '/' :: "run/user/".toList from rfl]
  rw [List.cons_append, List.cons_append]
  exact List.cons_ne_nil _ _

theorem fallback_ne_nil (uid : Nat) (v : List Char) :
    (if v = [] then user_sock uid else v) ≠ [] := by
  split
  · exact user_sock_ne_nil uid
  · assumption

/-- C10: the VM-socket value returned by the Darwin provisioner is never the
empty string: when the URI parse yields no path, the machine is rootful and
the default-connection scan yields no path either, the canonical per-user
path is returned. -/
theorem C10_vm_socket_nonempty (uri_out rootful_out : List Char)
    (conn_ls : List (List Char)) (uid : Nat) :
    vm_socket_of uri_out rootful_out conn_ls uid ≠ [] ∧
    (socket_from_uri (trimLine uri_out) = none → rootful_of rootful_out = true →
      scan_connections conn_ls = none →
      vm_socket_of uri_out rootful_out conn_ls uid = user_sock uid) := by
  constructor
  · unfold vm_socket_of
    dsimp only
    exact fallback_ne_nil uid _
  · intro h1 h2 h3
    unfold vm_socket_of
    dsimp only
    rw [h1, h3, if_pos h2]
    dsimp only
    simp only [ite_self]
    rfl

theorem C10_vm_socket_nonempty_witness :
    vm_socket_of [] [] [] 501 = user_sock 501 :=
  (C10_vm_socket_nonempty [] [] [] 501).2 (by decide) (by decide) rfl
